import Mathlib

/-!
Shallow embedding of the SkyWare mod-sharing data layer
(src/mod_share_database.py, class ModShareDatabase) and of the patch
dispatcher (src/main.py, class WiiWareModder: _apply_patch_thread,
_batch_patch_file, _apply_ips_patch, _apply_bps_patch, revert_patch).

Conventions of the embedding:
- sqlite tables become Lean lists of row structures; AUTOINCREMENT ids
  become explicit next-id counters; a per-operation transaction that
  rolls back on an exception becomes a returned pair
  (Except PyError result, new state) where the state is unchanged in
  every error case.
- CURRENT_TIMESTAMP defaults are modelled by an explicit (now : Nat)
  argument supplied by the environment.
- hashlib.sha256 hexdigest is an external collaborator; operations that
  use it take an abstract (hash_password : String -> String) argument.
- Python str primitives (strip, lower, in, splitext) are re-implemented
  over List Char so that concrete instances evaluate inside the kernel.
- The local file system is an association list from path to file bytes.
-/

/-- Python exception kinds observable from the embedded code paths. -/
inductive PyError where
  | valueError (msg : String)
  | programmingError (msg : String)
  | operationalError (msg : String)
  | attributeError (msg : String)
  | fileNotFoundError (msg : String)
deriving Repr, DecidableEq

/-- The message carried by a Python exception. -/
def pyErrMsg : PyError → String
  | .valueError m => m
  | .programmingError m => m
  | .operationalError m => m
  | .attributeError m => m
  | .fileNotFoundError m => m

/-- True exactly on results that are a raised ValueError (the kind the
source uses for validation failures). -/
def returns_value_error {α : Type} : Except PyError α → Bool
  | .error (.valueError _) => true
  | _ => false

/-- Characters removed by Python str.strip with no arguments (ASCII
whitespace subset relevant to this code base). -/
def is_py_space (c : Char) : Bool :=
  c = ' ' || c = '\t' || c = '\n' || c = '\r' || c = '\x0b' || c = '\x0c'

/-- str.strip over a character list. -/
def strip_chars (cs : List Char) : List Char :=
  ((cs.dropWhile is_py_space).reverse.dropWhile is_py_space).reverse

/-- Python str.strip(). -/
def py_strip (s : String) : String := String.mk (strip_chars s.data)

/-- ASCII lower-casing of one character (str.lower on the alphabets used
in this code base). -/
def ascii_lower (c : Char) : Char :=
  if 65 ≤ c.toNat ∧ c.toNat ≤ 90 then Char.ofNat (c.toNat + 32) else c

/-- str.lower over a character list. -/
def lower_chars (cs : List Char) : List Char := cs.map ascii_lower

/-- Python str.lower(). -/
def py_lower (s : String) : String := String.mk (lower_chars s.data)

/-- Whether the second list occurs at the head of the first. -/
def starts_with_chars : List Char → List Char → Bool
  | _, [] => true
  | [], _ :: _ => false
  | c :: cs, d :: ds => c = d && starts_with_chars cs ds

/-- Whether the second list occurs anywhere inside the first
(substring containment over character lists). -/
def contains_chars : List Char → List Char → Bool
  | [], needle => starts_with_chars [] needle
  | c :: t, needle => starts_with_chars (c :: t) needle || contains_chars t needle

/-- SQL LIKE with a pattern of the shape percent-query-percent, which is
how get_mods builds its search terms: case-insensitive substring match
(sqlite LIKE is case-insensitive on ASCII). -/
def like_contains (hay q : String) : Bool :=
  contains_chars (lower_chars hay.data) (lower_chars q.data)

/-- Characters after the last slash (os.path.basename on the
forward-slash paths used by the embedding). -/
def basename_chars (cs : List Char) : List Char :=
  cs.foldl (fun acc c => if c = '/' then [] else acc ++ [c]) []

/-- Extension part of os.path.splitext on a basename: the text from the
last dot (dot included), except that leading dots never open an
extension. -/
def splitext_ext_chars (bs : List Char) : List Char :=
  let lead := bs.takeWhile (fun c => c = '.')
  let rest := bs.drop lead.length
  if rest.contains '.' then
    '.' :: (rest.reverse.takeWhile (fun c => c ≠ '.')).reverse
  else []

/-- os.path.splitext(p)[1]. -/
def splitext_ext (p : String) : String :=
  String.mk (splitext_ext_chars (basename_chars p.data))

/-- os.path.splitext(p)[1].lower(), the form used to dispatch on a patch
file extension. -/
def file_ext_lower (p : String) : String := py_lower (splitext_ext p)

/-- os.path.splitext(os.path.basename(p))[0]: the basename with its
extension removed. -/
def file_stem (p : String) : String :=
  let b := basename_chars p.data
  String.mk (b.take (b.length - (splitext_ext_chars b).length))

/-- os.path.join for the two-component joins performed by the batch
patcher. -/
def path_join (dir name : String) : String := dir ++ "/" ++ name

/-- The local file system: association list from path to file bytes. -/
abbrev FS := List (String × List Nat)

/-- os.path.exists / open-for-read: the bytes stored at a path. -/
def fsLookup (fs : FS) (p : String) : Option (List Nat) :=
  (fs.find? (fun e => e.1 = p)).map (fun e => e.2)

/-- Writing (or overwriting) a file. -/
def fsWrite (fs : FS) (p : String) (data : List Nat) : FS :=
  (p, data) :: fs.filter (fun e => e.1 ≠ p)

/-- Row of the users table (mod_share_database.py lines 32-45). -/
structure UserRow where
  id : Nat
  username : String
  email : String
  password_hash : String
  created_date : Nat
  last_login : Option Nat := none
  is_active : Bool := true
  is_moderator : Bool := false
  avatar_path : Option String := none
  bio : Option String := none
deriving Repr, DecidableEq

/-- Row of the mods table (lines 48-68). -/
structure ModRow where
  id : Nat
  title : String
  description : String
  author_id : Nat
  file_path : String
  file_size : Nat
  upload_date : Nat
  download_count : Nat := 0
  rating : Rat := 0
  rating_count : Nat := 0
  is_public : Bool := true
  is_featured : Bool := false
  game_compatibility : String
  version : String
  tags : String
  thumbnail_path : Option String := none
deriving Repr, DecidableEq

/-- Row of the comments table (lines 71-83). -/
structure CommentRow where
  id : Nat
  mod_id : Nat
  user_id : Nat
  comment : String
  rating : Option Int
  created_date : Nat
  is_approved : Bool := true
deriving Repr, DecidableEq

/-- Row of the downloads table (lines 86-96). -/
structure DownloadRow where
  id : Nat
  mod_id : Nat
  user_id : Option Nat
  download_date : Nat
  ip_address : Option String
deriving Repr, DecidableEq

/-- Row of the categories table (lines 99-107). -/
structure CategoryRow where
  id : Nat
  name : String
  description : String
  parent_id : Option Nat := none
deriving Repr, DecidableEq

/-- The whole backing store: the five tables, the mod_categories join
table (pairs of mod id and category id), and the AUTOINCREMENT
counters. -/
structure DB where
  users : List UserRow := []
  mods : List ModRow := []
  comments : List CommentRow := []
  downloads : List DownloadRow := []
  categories : List CategoryRow := []
  mod_categories : List (Nat × Nat) := []
  nextUserId : Nat := 1
  nextModId : Nat := 1
  nextCommentId : Nat := 1
  nextDownloadId : Nat := 1
  nextCategoryId : Nat := 1
deriving Repr, DecidableEq

/-- A freshly created store, before init_database has run. -/
def emptyDB : DB := {}

/-- The fixed category seed list of _init_default_categories
(mod_share_database.py lines 133-141). -/
def default_categories : List (String × String) :=
  [("Game Mods", "General game modifications"),
   ("Character Mods", "Character replacements and additions"),
   ("Stage Mods", "Custom stages and stage modifications"),
   ("Music Mods", "Custom music and sound modifications"),
   ("Texture Mods", "Texture and visual modifications"),
   ("Utility Mods", "Tools and utilities"),
   ("Experimental", "Experimental and beta mods")]

/-- INSERT OR IGNORE INTO categories (name, description): inserts a new
row unless the UNIQUE name is already present (lines 143-147). -/
def insert_or_ignore_category (db : DB) (nm descr : String) : DB :=
  if db.categories.any (fun c => c.name = nm) then db
  else
    { db with
      categories := db.categories ++ [{ id := db.nextCategoryId, name := nm, description := descr }],
      nextCategoryId := db.nextCategoryId + 1 }

/-- init_database (lines 25-128): CREATE TABLE IF NOT EXISTS for the six
tables (a no-op on the state model, which always carries all tables)
followed by _init_default_categories, which INSERT OR IGNOREs each seed
category in order. -/
def init_database (db : DB) : DB :=
  default_categories.foldl (fun d p => insert_or_ignore_category d p.1 p.2) db

/-- create_user (lines 158-202). Validation order follows the source:
empty username, empty email, short password, email lacking an at-sign or
a dot; then username and email are stripped and the INSERT runs, whose
UNIQUE violations the source converts to ValueError messages naming the
duplicated field (username checked before email, matching the text test
on the sqlite IntegrityError message). Every failure leaves the store
unchanged (the connection context rolls back). -/
def create_user (hash_password : String → String) (db : DB) (now : Nat)
    (username email password : String) : Except PyError Nat × DB :=
  if py_strip username = "" then (.error (.valueError "Username cannot be empty"), db)
  else if py_strip email = "" then (.error (.valueError "Email cannot be empty"), db)
  else if password.length < 6 then
    (.error (.valueError "Password must be at least 6 characters"), db)
  else if ¬ (email.data.contains '@' = true ∧ email.data.contains '.' = true) then
    (.error (.valueError "Invalid email format"), db)
  else
    if db.users.any (fun u => u.username = py_strip username) then
      (.error (.valueError "Username already exists"), db)
    else if db.users.any (fun u => u.email = py_strip email) then
      (.error (.valueError "Email already exists"), db)
    else
      (.ok db.nextUserId,
       { db with
         users := db.users ++
           [{ id := db.nextUserId, username := py_strip username, email := py_strip email,
              password_hash := hash_password password, created_date := now }],
         nextUserId := db.nextUserId + 1 })

/-- authenticate_user (lines 204-237). The SELECT matches a row whose
username or email equals the identifier, whose password_hash equals the
hash of the supplied password, and whose is_active flag is set. When no
row matches, the function returns None. When a row matches, the source
then runs cursor.execute(update-last-login-sql, (user[0])): the second
argument is a parenthesized int, not a tuple (the comma is missing), so
sqlite3 raises ProgrammingError with message
parameters are of unsupported type; the except clause logs and
re-raises, and the connection context rolls back, so the store is
unchanged. The success dictionary of lines 226-232 is unreachable. -/
def authenticate_user (hash_password : String → String) (db : DB)
    (username_or_email password : String) : Except PyError (Option UserRow) × DB :=
  match db.users.find? (fun u =>
      decide ((u.username = username_or_email ∨ u.email = username_or_email) ∧
              u.password_hash = hash_password password ∧ u.is_active = true)) with
  | some _ => (.error (.programmingError "parameters are of unsupported type"), db)
  | none => (.ok none, db)

/-- The 100 MiB upload cap of upload_mod (line 255). -/
def max_mod_size : Nat := 100 * 1024 * 1024

/-- upload_mod (lines 239-283). Validates title, file existence and
game_compatibility, checks the size cap, strips the text fields with the
Python truthiness fallbacks of lines 260-264, and inserts the row. The
author_id is stored without any existence check (sqlite foreign keys are
not enabled). -/
def upload_mod (fs : FS) (db : DB) (now : Nat) (title description : String)
    (author_id : Nat) (file_path game_compatibility version tags : String)
    (is_public : Bool) : Except PyError Nat × DB :=
  if py_strip title = "" then (.error (.valueError "Mod title cannot be empty"), db)
  else if file_path = "" ∨ fsLookup fs file_path = none then
    (.error (.valueError "Mod file does not exist"), db)
  else if py_strip game_compatibility = "" then
    (.error (.valueError "Game compatibility is required"), db)
  else
    if ((fsLookup fs file_path).getD []).length > max_mod_size then
      (.error (.valueError "File too large. Maximum size is 100MB."), db)
    else
      (.ok db.nextModId,
       { db with
         mods := db.mods ++
           [{ id := db.nextModId, title := py_strip title,
              description := if description ≠ "" then py_strip description else "",
              author_id := author_id, file_path := file_path,
              file_size := ((fsLookup fs file_path).getD []).length,
              upload_date := now,
              game_compatibility := py_strip game_compatibility,
              version := if version ≠ "" then py_strip version else "1.0",
              tags := if tags ≠ "" then py_strip tags else "",
              is_public := is_public }],
         nextModId := db.nextModId + 1 })

/-- The columns of the mods table: the identifiers for which the
interpolated ORDER BY term of get_mods names an existing column. -/
def mods_columns : List String :=
  ["id", "title", "description", "author_id", "file_path", "file_size",
   "upload_date", "download_count", "rating", "rating_count", "is_public",
   "is_featured", "game_compatibility", "version", "tags", "thumbnail_path"]

/-- The fixed SELECT-FROM-JOIN-WHERE head of the get_mods query (lines
292-299), whitespace normalized to single spaces. -/
def get_mods_base_query : String :=
  "SELECT m.id, m.title, m.description, m.upload_date, m.download_count, m.rating, m.rating_count, m.version, m.game_compatibility, u.username as author_name, m.thumbnail_path FROM mods m JOIN users u ON m.author_id = u.id WHERE m.is_public = 1"

/-- Python truthiness of the category_id argument (line 302): None and 0
are falsy, so only a nonzero id activates the category filter. -/
def category_filter_on (category_id : Option Nat) : Bool := category_id.getD 0 ≠ 0

/-- Python truthiness of the search_query argument (line 308): None and
the empty string are falsy. -/
def search_filter_on (q : Option String) : Bool := q.getD "" ≠ ""

/-- The SQL text get_mods builds before appending the ORDER BY clause
(lines 292-311): base query plus the optional category and search
conditions. -/
def get_mods_filter_query (category_id : Option Nat) (q : Option String) : String :=
  let q1 := get_mods_base_query
  let q2 := if category_filter_on category_id then
      q1 ++ " AND m.id IN ( SELECT mod_id FROM mod_categories WHERE category_id = ? )"
    else q1
  if search_filter_on q then
    q2 ++ " AND (m.title LIKE ? OR m.description LIKE ? OR m.tags LIKE ?)"
  else q2

/-- The full SQL text get_mods executes (line 313): the caller-supplied
sort_by and sort_order are interpolated verbatim into the ORDER BY
clause with no allow-list check anywhere in the function. -/
def get_mods_query (category_id : Option Nat) (q : Option String)
    (sort_by sort_order : String) : String :=
  get_mods_filter_query category_id q ++
    " ORDER BY m." ++ sort_by ++ " " ++ sort_order ++ " LIMIT ? OFFSET ?"

/-- The inner join of mods with users on m.author_id = u.id. -/
def get_mods_joined (db : DB) : List (ModRow × UserRow) :=
  db.mods.flatMap (fun m =>
    (db.users.filter (fun u => u.id = m.author_id)).map (fun u => (m, u)))

/-- The joined rows surviving the WHERE clause of get_mods: public
listings, restricted by the optional category and search filters. -/
def get_mods_rows (db : DB) (category_id : Option Nat) (q : Option String) :
    List (ModRow × UserRow) :=
  (((get_mods_joined db).filter (fun mu => mu.1.is_public = true)).filter
      (fun mu => !category_filter_on category_id ||
        db.mod_categories.any (fun mc => mc.1 = mu.1.id && some mc.2 = category_id))).filter
    (fun mu => !search_filter_on q ||
      (like_contains mu.1.title (q.getD "") || like_contains mu.1.description (q.getD "") ||
       like_contains mu.1.tags (q.getD "")))

/-- Ascending comparison of two joined rows under one mods-table column
name, mirroring sqlite ordering on the stored values. -/
def mod_col_le (sort_by : String) (a b : ModRow × UserRow) : Bool :=
  if sort_by = "id" then a.1.id ≤ b.1.id
  else if sort_by = "title" then decide (a.1.title ≤ b.1.title)
  else if sort_by = "description" then decide (a.1.description ≤ b.1.description)
  else if sort_by = "author_id" then a.1.author_id ≤ b.1.author_id
  else if sort_by = "file_path" then decide (a.1.file_path ≤ b.1.file_path)
  else if sort_by = "file_size" then a.1.file_size ≤ b.1.file_size
  else if sort_by = "upload_date" then a.1.upload_date ≤ b.1.upload_date
  else if sort_by = "download_count" then a.1.download_count ≤ b.1.download_count
  else if sort_by = "rating" then decide (a.1.rating ≤ b.1.rating)
  else if sort_by = "rating_count" then a.1.rating_count ≤ b.1.rating_count
  else if sort_by = "is_public" then !a.1.is_public || b.1.is_public
  else if sort_by = "is_featured" then !a.1.is_featured || b.1.is_featured
  else if sort_by = "game_compatibility" then decide (a.1.game_compatibility ≤ b.1.game_compatibility)
  else if sort_by = "version" then decide (a.1.version ≤ b.1.version)
  else if sort_by = "tags" then decide (a.1.tags ≤ b.1.tags)
  else
    match a.1.thumbnail_path, b.1.thumbnail_path with
    | none, _ => true
    | some _, none => false
    | some x, some y => decide (x ≤ y)

/-- The ORDER BY direction: DESC flips the column comparison. -/
def mod_order_le (sort_by sort_order : String) (a b : ModRow × UserRow) : Bool :=
  if sort_order = "DESC" then mod_col_le sort_by b a else mod_col_le sort_by a b

/-- One element of the list get_mods returns (lines 319-331). -/
structure ModSummary where
  id : Nat
  title : String
  description : String
  upload_date : Nat
  download_count : Nat
  rating : Rat
  rating_count : Nat
  version : String
  game_compatibility : String
  author_name : String
  thumbnail_path : Option String
deriving Repr, DecidableEq

/-- The dictionary built from one fetched row (lines 319-331). -/
def to_summary (mu : ModRow × UserRow) : ModSummary :=
  { id := mu.1.id, title := mu.1.title, description := mu.1.description,
    upload_date := mu.1.upload_date, download_count := mu.1.download_count,
    rating := mu.1.rating, rating_count := mu.1.rating_count,
    version := mu.1.version, game_compatibility := mu.1.game_compatibility,
    author_name := mu.2.username, thumbnail_path := mu.1.thumbnail_path }

/-- get_mods (lines 285-335). The function itself performs no validation
of sort_by or sort_order: it interpolates both into the SQL text
(get_mods_query) and executes it. When the interpolated ORDER BY term
names a mods column and a valid direction, the query runs: join, WHERE
filters, ORDER BY, then LIMIT/OFFSET. Any other interpolated value makes
the database engine itself reject the SQL at execution time, which
surfaces as a sqlite3 error (re-raised by the except clause), never as
the ValueError the source uses for validation failures. -/
def get_mods (db : DB) (limit offset : Nat) (category_id : Option Nat)
    (search_query : Option String) (sort_by sort_order : String) :
    Except PyError (List ModSummary) :=
  if sort_by ∈ mods_columns ∧ sort_order ∈ (["ASC", "DESC"] : List String) then
    .ok (((((get_mods_rows db category_id search_query).mergeSort
        (mod_order_le sort_by sort_order)).drop offset).take limit).map to_summary)
  else
    .error (.operationalError ("near ORDER BY term m." ++ sort_by ++ ": SQL error"))

/-- All ratings attached to comments of one mod: the rows the subqueries
of lines 431-444 aggregate over (WHERE mod_id = ? AND rating IS NOT
NULL). -/
def rated_for (comments : List CommentRow) (mid : Nat) : List Int :=
  comments.filterMap (fun c => if c.mod_id = mid then c.rating else none)

/-- The UPDATE of lines 431-444: sets the mod row rating to the AVG and
rating_count to the COUNT of its non-NULL comment ratings. -/
def recompute_rating (db : DB) (mid : Nat) : DB :=
  { db with
    mods := db.mods.map (fun m =>
      if m.id = mid then
        { m with
          rating := ((rated_for db.comments mid).sum : Rat) /
            ((rated_for db.comments mid).length : Rat)
          rating_count := (rated_for db.comments mid).length }
      else m) }

/-- The rating range check of line 405 (rating is not None and out of
the 1..5 range). -/
def bad_rating (rating : Option Int) : Bool :=
  match rating with
  | some r => decide (r < 1) || decide (5 < r)
  | none => false

/-- add_comment (lines 398-451). Validates the comment text and the
rating range, checks that the mod and the user exist, inserts the
comment, and, when a truthy rating was supplied (line 430), recomputes
the mod aggregate rating and rating_count inside the same
transaction. -/
def add_comment (db : DB) (now : Nat) (mod_id user_id : Nat) (comment : String)
    (rating : Option Int) : Except PyError Unit × DB :=
  if py_strip comment = "" then (.error (.valueError "Comment cannot be empty"), db)
  else if bad_rating rating then (.error (.valueError "Rating must be between 1 and 5"), db)
  else if db.mods.any (fun m => m.id = mod_id) then
    if db.users.any (fun u => u.id = user_id) then
      let db1 : DB :=
        { db with
          comments := db.comments ++
            [{ id := db.nextCommentId, mod_id := mod_id, user_id := user_id,
               comment := py_strip comment, rating := rating, created_date := now }],
          nextCommentId := db.nextCommentId + 1 }
      (.ok (), if rating.getD 0 ≠ 0 then recompute_rating db1 mod_id else db1)
    else (.error (.valueError "User not found"), db)
  else (.error (.valueError "Mod not found"), db)

/-- record_download (lines 453-473): inserts a downloads row for the
given mod_id with no existence check, then runs UPDATE mods SET
download_count = download_count + 1 WHERE id = mod_id, which touches
exactly the rows whose id matches (zero rows when the mod is absent),
and returns normally. -/
def record_download (db : DB) (now : Nat) (mod_id : Nat) (user_id : Option Nat)
    (ip_address : Option String) : Except PyError Unit × DB :=
  let db1 : DB :=
    { db with
      downloads := db.downloads ++
        [{ id := db.nextDownloadId, mod_id := mod_id, user_id := user_id,
           download_date := now, ip_address := ip_address }],
      nextDownloadId := db.nextDownloadId + 1 }
  (.ok (),
   { db1 with
     mods := db1.mods.map (fun m =>
       if m.id = mod_id then { m with download_count := m.download_count + 1 } else m) })

/-- One entry of the in-memory patch history (main.py lines 1454-1459):
timestamp, original-file path, patch-file path, and the computed
backup-file path (the configured backup directory concatenated, with no
separator, with backup_, the timestamp and .bak). -/
structure PatchRecord where
  timestamp : String
  original_file : String
  patch_file : String
  backup_file : String
deriving Repr, DecidableEq

/-- What the single-file patch thread reports to the user
(main.py lines 1464-1475). -/
inductive PatchOutcome where
  | success
  | fileError (msg : String)
  | invalidFormat (msg : String)
deriving Repr, DecidableEq

/-- The patch extensions _apply_patch_thread accepts (main.py line
1445). -/
def allowed_patch_exts : List String := [".ips", ".bps", ".patch"]

/-- _apply_patch_thread (main.py lines 1428-1475), single-file mode:
validates that the patch file and the current file are set and exist,
rejects a patch whose lower-cased extension is outside the allow-list
with the ValueError branch (rendered as Invalid patch format), and
otherwise appends a PatchRecord to the in-memory history and reports
success. No file is modified in any case. -/
def apply_patch_thread (fs : FS) (history : List PatchRecord)
    (backup_directory timestamp patch_file current_file : String) :
    PatchOutcome × List PatchRecord :=
  if patch_file = "" ∨ fsLookup fs patch_file = none then
    (.fileError "Patch file not found or invalid", history)
  else if current_file = "" ∨ fsLookup fs current_file = none then
    (.fileError "Original file not found or invalid", history)
  else if ¬ file_ext_lower patch_file ∈ allowed_patch_exts then
    (.invalidFormat ("Unsupported patch format: " ++ file_ext_lower patch_file), history)
  else
    (.success,
     history ++ [{ timestamp := timestamp, original_file := current_file,
                   patch_file := patch_file,
                   backup_file := backup_directory ++ "backup_" ++ timestamp ++ ".bak" }])

/-- The 5-byte ASCII marker PATCH the IPS branch looks for (main.py line
1706). -/
def ips_marker : List Nat := [80, 65, 84, 67, 72]

/-- _apply_ips_patch (main.py lines 1695-1719): reads the original and
the patch; whether or not the patch is longer than 5 bytes and begins
with the PATCH marker, the bytes written to the output file are the
unmodified original (the marker branch writes original_data, the other
branch copies the original). When the patch cannot be read, the except
clause falls back to the same copy. When the original itself cannot be
read, the fallback copy raises as well and the error propagates to the
caller. -/
def apply_ips_patch (fs : FS) (original_file patch_file output_file : String) :
    Except PyError FS :=
  match fsLookup fs original_file, fsLookup fs patch_file with
  | some odata, some pdata =>
      if pdata.length > 5 ∧ pdata.take 5 = ips_marker then
        .ok (fsWrite fs output_file odata)
      else
        .ok (fsWrite fs output_file odata)
  | some odata, none => .ok (fsWrite fs output_file odata)
  | none, _ => .error (.fileNotFoundError original_file)

/-- _apply_bps_patch (main.py lines 1721-1733): always copies the
unmodified original to the output file; a failing copy is retried by the
except clause and the error propagates. The patch file is never read. -/
def apply_bps_patch (fs : FS) (original_file patch_file output_file : String) :
    Except PyError FS :=
  match fsLookup fs original_file with
  | some odata => .ok (fsWrite fs output_file odata)
  | none => .error (.fileNotFoundError original_file)

/-- The state one batch run threads through its per-file steps: the file
system plus the contents (one string per line) of batch_patch_log.txt
and batch_patch_errors.txt in the batch output directory. -/
structure BatchState where
  fs : FS
  logs : List String
  errors : List String
deriving Repr, DecidableEq

/-- The output path _batch_patch_file builds (main.py lines 1666-1667):
output directory joined with the stem of the input file, _patched, and
the input file extension. -/
def batch_output_name (output_dir file_path : String) : String :=
  path_join output_dir (file_stem file_path ++ "_patched" ++ splitext_ext file_path)

/-- _batch_patch_file (main.py lines 1656-1693), batch mode: a missing
or unset patch file prints a warning and returns with no log line;
otherwise the step dispatches on the lower-cased patch extension:
.ips and .bps go to their patch routines and every other extension takes
the generic branch, a plain copy of the input file to the output path.
A completed branch appends one line to batch_patch_log.txt; an exception
from any branch is caught and appends one line to
batch_patch_errors.txt instead. The function itself never raises, so a
failing file never stops the surrounding batch loop. -/
def batch_patch_file (s : BatchState) (output_dir patch_file nowStr file_path : String) :
    BatchState :=
  if patch_file = "" ∨ fsLookup s.fs patch_file = none then s
  else
    match (if file_ext_lower patch_file = ".ips" then
             apply_ips_patch s.fs file_path patch_file (batch_output_name output_dir file_path)
           else if file_ext_lower patch_file = ".bps" then
             apply_bps_patch s.fs file_path patch_file (batch_output_name output_dir file_path)
           else
             match fsLookup s.fs file_path with
             | some data => .ok (fsWrite s.fs (batch_output_name output_dir file_path) data)
             | none => .error (.fileNotFoundError file_path)) with
    | .ok fs2 =>
        { s with
          fs := fs2
          logs := s.logs ++
            [nowStr ++ ": Patched " ++ file_path ++ " -> " ++
              batch_output_name output_dir file_path ++ " using " ++ patch_file] }
    | .error e =>
        { s with
          errors := s.errors ++
            [nowStr ++ ": Error patching " ++ file_path ++ ": " ++ pyErrMsg e] }

/-- The patch branch of _batch_processing_thread (main.py lines
1610-1639): the per-file step applied to each selected file in order. -/
def batch_run (output_dir patch_file nowStr : String) (files : List String)
    (s : BatchState) : BatchState :=
  files.foldl (fun st f => batch_patch_file st output_dir patch_file nowStr f) s

/-- The widget attributes the setup code actually assigns for the patch
history pane: main.py line 928 creates self.patch_history_list, and no
line anywhere assigns self.patch_history_listbox. -/
def widget_attrs : List String := ["patch_history_list"]

/-- What revert_patch reports (main.py lines 1519-1550). -/
inductive RevertOutcome where
  | warnSelect
  | success
  | backupMissing
  | errorShown (msg : String)
deriving Repr, DecidableEq

/-- The application state revert_patch touches: the file system, the
in-memory patch history, the currently loaded file, and the history-pane
selection. -/
structure AppState where
  fs : FS
  patch_history : List PatchRecord
  current_file : String
  selection : Option Nat
deriving Repr, DecidableEq

/-- revert_patch (main.py lines 1519-1550), after the user confirms.
With no selection it only warns. With a selection, the try block first
evaluates self.patch_history_listbox.curselection(); patch_history_listbox
is not among the attributes the class ever assigns (the history widget
is patch_history_list), so the lookup raises AttributeError, the except
clause shows Failed to revert patch, and nothing changes. The restore
path of lines 1534-1547 (copy the backup over the current file and pop
the record; complain when the backup is absent) sits under the attribute
test and is unreachable. -/
def revert_patch (s : AppState) : RevertOutcome × AppState :=
  match s.selection with
  | none => (.warnSelect, s)
  | some i =>
      if "patch_history_listbox" ∈ widget_attrs then
        match s.patch_history.get? i with
        | none => (.errorShown "Failed to revert patch", s)
        | some record =>
            match fsLookup s.fs record.backup_file with
            | some data =>
                if record.backup_file ≠ "" then
                  (.success,
                   { s with
                     fs := fsWrite s.fs s.current_file data
                     patch_history := s.patch_history.eraseIdx i })
                else (.backupMissing, s)
            | none => (.backupMissing, s)
      else
        (.errorShown
          "Failed to revert patch: WiiWareModder object has no attribute patch_history_listbox", s)

/-- One add_comment invocation of a caller-driven sequence on a fixed
mod: the timestamp, the commenting user, the comment text, and the
optional star rating. -/
structure CommentCall where
  now : Nat
  user_id : Nat
  text : String
  rating : Option Int
deriving Repr, DecidableEq

/-- Runs a sequence of add_comment calls on one mod, threading the store
through (each call is its own transaction; the driver ignores the
per-call results, as the GUI caller does). -/
def run_comments (db : DB) (mid : Nat) (calls : List CommentCall) : DB :=
  calls.foldl (fun d c => (add_comment d c.now mid c.user_id c.text c.rating).2) db

/-- The ratings carried by a call sequence, in order (calls without a
rating contribute nothing). -/
def call_ratings (calls : List CommentCall) : List Int :=
  calls.filterMap (fun c => c.rating)

/-- Fixture: the registered account used by the authentication claims
(its stored hash equals the identity-hash of the password secret1). -/
def c1u : UserRow :=
  { id := 1, username := "alice", email := "a@x.com", password_hash := "secret1",
    created_date := 0 }

/-- Fixture: a store holding exactly the account c1u. -/
def c1db : DB := { users := [c1u], nextUserId := 2 }

/-- Fixture: a batch state holding two input files and a patch file with
the unsupported extension .xyz. -/
def c3state : BatchState :=
  { fs := [("game.wad", [1, 2, 3]), ("other.wad", [7]), ("p.xyz", [9])],
    logs := [], errors := [] }

/-- Fixture: a single-file-mode file system holding an original file and
the same .xyz patch. -/
def c3fs : FS := [("game.wad", [1, 2, 3]), ("p.xyz", [9])]

/-- Fixture: a patch-history record whose backup file exists on disk. -/
def c4record : PatchRecord :=
  { timestamp := "T", original_file := "game.wad", patch_file := "p.ips",
    backup_file := "backups/backup_T.bak" }

/-- Fixture: an application state with c4record selected and its backup
file present. -/
def c4state : AppState :=
  { fs := [("game.wad", [9, 9]), ("backups/backup_T.bak", [1, 2])],
    patch_history := [c4record], current_file := "game.wad", selection := some 0 }

/-- Fixture: the account commenting in the rating claims. -/
def c5user : UserRow :=
  { id := 1, username := "alice", email := "a@x.com", password_hash := "h",
    created_date := 0 }

/-- Fixture: a freshly uploaded mod with no comments yet. -/
def c5mod : ModRow :=
  { id := 1, title := "Hat Mod", description := "", author_id := 1,
    file_path := "shared_mods/1_hat.zip", file_size := 3, upload_date := 0,
    game_compatibility := "Test Game", version := "1.0", tags := "" }

/-- Fixture: a store holding c5user and c5mod. -/
def c5db : DB := { users := [c5user], mods := [c5mod], nextUserId := 2, nextModId := 2 }

/-- Fixture: a comment sequence whose ratings are 4 and 2 with an
unrated comment in between (mean 3, count 2). -/
def c5calls : List CommentCall :=
  [{ now := 1, user_id := 1, text := "nice", rating := some 4 },
   { now := 2, user_id := 1, text := "ok", rating := none },
   { now := 3, user_id := 1, text := "meh", rating := some 2 }]

/-- Fixture: a file system with an original file, a patch carrying the
PATCH marker, a patch without it, and a .bps patch. -/
def c6fs : FS :=
  [("orig.bin", [1, 2, 3]), ("p1.ips", [80, 65, 84, 67, 72, 0]), ("p2.ips", [1, 2]),
   ("p.bps", [5])]

/-- Fixture: a batch state over c6fs. -/
def c6state : BatchState := { fs := c6fs, logs := [], errors := [] }

/-- Fixture: the file system for the orphan-upload claim, holding the
mod file to be uploaded. -/
def c9fs : FS := [("shared_mods/9_mod.zip", [1, 2, 3])]

/-- Fixture: a store with one account (id 1) and no mods; user id 7 does
not exist. -/
def c9db : DB :=
  { users := [{ id := 1, username := "alice", email := "a@x.com", password_hash := "h",
                created_date := 0 }], nextUserId := 2 }

/-- Fixture: a store with a single mod (id 1); mod id 7 does not
exist. -/
def c10db : DB :=
  { mods := [{ id := 1, title := "T", description := "", author_id := 1,
               file_path := "f", file_size := 1, upload_date := 0,
               game_compatibility := "G", version := "1.0", tags := "" }],
    nextModId := 2 }

/-- Reading back the file just written. -/
theorem fsLookup_fsWrite_self (fs : FS) (p : String) (d : List Nat) :
    fsLookup (fsWrite fs p d) p = some d := by
  unfold fsLookup fsWrite
  rw [List.find?_cons_of_pos _ (by simp)]
  rfl

/-- C10: record_download called with a mod_id that references no mod row
does not fail: it returns normally, appends one downloads row carrying
that mod_id, and leaves every mod row unchanged (the counter UPDATE
matches zero rows). -/
theorem C10_record_download_missing_mod (db : DB) (now mid : Nat)
    (uid : Option Nat) (ip : Option String)
    (habsent : ∀ m ∈ db.mods, m.id ≠ mid) :
    (record_download db now mid uid ip).1 = .ok () ∧
    (record_download db now mid uid ip).2.mods = db.mods ∧
    (record_download db now mid uid ip).2.downloads =
      db.downloads ++ [{ id := db.nextDownloadId, mod_id := mid, user_id := uid,
                         download_date := now, ip_address := ip }] := by
  refine ⟨rfl, ?_, rfl⟩
  have h : db.mods.map (fun m =>
      if m.id = mid then { m with download_count := m.download_count + 1 } else m) = db.mods := by
    have := List.map_congr_left (l := db.mods)
      (f := fun m => if m.id = mid then { m with download_count := m.download_count + 1 } else m)
      (g := id) (fun a ha => by simp [if_neg (habsent a ha)])
    simpa using this
  exact h

/-- C10 witness: the concrete store c10db has no mod with id 7, and
record_download for mod 7 returns ok, keeps the single mod row intact,
and appends the downloads row. -/
theorem C10_witness :
    (∀ m ∈ c10db.mods, m.id ≠ 7) ∧
    ((record_download c10db 5 7 none none).1 = .ok () ∧
     (record_download c10db 5 7 none none).2.mods = c10db.mods ∧
     (record_download c10db 5 7 none none).2.downloads =
       c10db.downloads ++ [{ id := c10db.nextDownloadId, mod_id := 7, user_id := none,
                             download_date := 5, ip_address := none }]) :=
  ⟨by decide, C10_record_download_missing_mod c10db 5 7 none none (by decide)⟩

/-- After insert_or_ignore_category, a row named nm is present. -/
theorem insert_cat_seeds_own (db : DB) (nm d : String) :
    (insert_or_ignore_category db nm d).categories.any (fun c => c.name = nm) = true := by
  unfold insert_or_ignore_category
  split
  · assumption
  · simp [List.any_append]

/-- insert_or_ignore_category keeps every already-present name
present. -/
theorem insert_cat_preserves_seed (db : DB) (nm d x : String)
    (h : db.categories.any (fun c => c.name = x) = true) :
    (insert_or_ignore_category db nm d).categories.any (fun c => c.name = x) = true := by
  unfold insert_or_ignore_category
  split
  · exact h
  · simp [List.any_append, h]

/-- The seeding fold keeps every already-present name present. -/
theorem init_fold_preserves_seed (ps : List (String × String)) (x : String) :
    ∀ db : DB, db.categories.any (fun c => c.name = x) = true →
      ((ps.foldl (fun d p => insert_or_ignore_category d p.1 p.2) db).categories.any
        (fun c => c.name = x)) = true := by
  induction ps with
  | nil => exact fun db h => h
  | cons p t ih =>
      exact fun db h => ih _ (insert_cat_preserves_seed db p.1 p.2 x h)

/-- After the seeding fold, every seeded name is present. -/
theorem init_fold_seeds (ps : List (String × String)) :
    ∀ db : DB, ∀ p ∈ ps,
      ((ps.foldl (fun d q => insert_or_ignore_category d q.1 q.2) db).categories.any
        (fun c => c.name = p.1)) = true := by
  induction ps with
  | nil => intro db p hp; cases hp
  | cons q t ih =>
      intro db p hp
      rcases List.mem_cons.mp hp with h | h
      · subst h
        exact init_fold_preserves_seed t p.1 _ (insert_cat_seeds_own db p.1 p.2)
      · exact ih _ p h

/-- insert_or_ignore_category is the identity when the name is already
present. -/
theorem insert_cat_noop (db : DB) (nm d : String)
    (h : db.categories.any (fun c => c.name = nm) = true) :
    insert_or_ignore_category db nm d = db := by
  unfold insert_or_ignore_category
  rw [if_pos h]

/-- The seeding fold is the identity when every seeded name is already
present. -/
theorem init_fold_noop (ps : List (String × String)) :
    ∀ db : DB, (∀ p ∈ ps, db.categories.any (fun c => c.name = p.1) = true) →
      ps.foldl (fun d p => insert_or_ignore_category d p.1 p.2) db = db := by
  induction ps with
  | nil => intro db _; rfl
  | cons q t ih =>
      intro db h
      rw [List.foldl_cons, insert_cat_noop db q.1 q.2 (h q (by simp))]
      exact ih db (fun p hp => h p (by simp [hp]))

/-- insert_or_ignore_category preserves distinctness of the category
names. -/
theorem insert_cat_nodup (db : DB) (nm d : String)
    (h : (db.categories.map (fun c => c.name)).Nodup) :
    ((insert_or_ignore_category db nm d).categories.map (fun c => c.name)).Nodup := by
  unfold insert_or_ignore_category
  split
  · exact h
  · next hne =>
      have hnotin : nm ∉ db.categories.map (fun c => c.name) := by
        intro hmem
        rcases List.mem_map.mp hmem with ⟨c, hc, hcn⟩
        exact hne (List.any_eq_true.mpr ⟨c, hc, by simp [hcn]⟩)
      simp only [List.map_append, List.map_cons, List.map_nil]
      rw [List.nodup_append]
      refine ⟨h, List.nodup_singleton nm, ?_⟩
      intro x hx hx1
      rcases List.mem_singleton.mp hx1 with rfl
      exact hnotin hx

/-- The seeding fold preserves distinctness of the category names. -/
theorem init_fold_nodup (ps : List (String × String)) :
    ∀ db : DB, (db.categories.map (fun c => c.name)).Nodup →
      ((ps.foldl (fun d p => insert_or_ignore_category d p.1 p.2) db).categories.map
        (fun c => c.name)).Nodup := by
  induction ps with
  | nil => exact fun db h => h
  | cons q t ih => exact fun db h => ih _ (insert_cat_nodup db q.1 q.2 h)

/-- C8: init_database is idempotent: a second run returns the store of
the first run unchanged, in particular the category count is unchanged,
and the category names stay duplicate-free. -/
theorem C8_init_database_idempotent (db : DB)
    (hnodup : (db.categories.map (fun c => c.name)).Nodup) :
    init_database (init_database db) = init_database db ∧
    (init_database (init_database db)).categories.length =
      (init_database db).categories.length ∧
    ((init_database db).categories.map (fun c => c.name)).Nodup := by
  have hidem : init_database (init_database db) = init_database db := by
    unfold init_database
    exact init_fold_noop default_categories _
      (fun p hp => init_fold_seeds default_categories db p hp)
  exact ⟨hidem, by rw [hidem], init_fold_nodup default_categories db hnodup⟩

/-- C8 witness: on a fresh store the category names are trivially
distinct, and the idempotence conclusions hold. -/
theorem C8_witness :
    (emptyDB.categories.map (fun c => c.name)).Nodup ∧
    (init_database (init_database emptyDB) = init_database emptyDB ∧
     (init_database (init_database emptyDB)).categories.length =
       (init_database emptyDB).categories.length ∧
     ((init_database emptyDB).categories.map (fun c => c.name)).Nodup) :=
  ⟨by decide, C8_init_database_idempotent emptyDB (by decide)⟩

/-- C4 (code behavior at the failing input): with any record selected,
revert_patch always takes the AttributeError path (the widget attribute
it reads is never assigned) and changes nothing: the history, the files
and the current file are returned untouched, whether or not the backup
exists. -/
theorem C4_revert_patch_never_reverts (s : AppState) (i : Nat)
    (hsel : s.selection = some i) :
    revert_patch s =
      (.errorShown
        "Failed to revert patch: WiiWareModder object has no attribute patch_history_listbox",
       s) := by
  unfold revert_patch
  rw [hsel]
  rfl

/-- C4 witness: in the concrete state c4state the selected record's
backup file exists on disk, yet revert_patch reports the failure and
leaves the state unchanged. -/
theorem C4_witness :
    c4state.selection = some 0 ∧
    fsLookup c4state.fs c4record.backup_file = some [1, 2] ∧
    revert_patch c4state =
      (.errorShown
        "Failed to revert patch: WiiWareModder object has no attribute patch_history_listbox",
       c4state) :=
  ⟨rfl, by decide, C4_revert_patch_never_reverts c4state 0 rfl⟩

/-- C2 (amended): get_mods performs no allow-list validation of sort_by:
it never raises the ValueError used for validation failures, and the SQL
it executes embeds the caller-supplied sort_by and sort_order verbatim
in the ORDER BY clause. -/
theorem C2_sortby_interpolated_never_validated (db : DB) (limit offset : Nat)
    (category_id : Option Nat) (q : Option String) (sort_by sort_order : String) :
    returns_value_error (get_mods db limit offset category_id q sort_by sort_order) = false ∧
    get_mods_query category_id q sort_by sort_order =
      get_mods_filter_query category_id q ++
        " ORDER BY m." ++ sort_by ++ " " ++ sort_order ++ " LIMIT ? OFFSET ?" := by
  refine ⟨?_, rfl⟩
  unfold get_mods
  split <;> rfl

set_option maxRecDepth 20000 in
/-- C2 counterexample: calling get_mods with the unrecognized sort_by
value evil is not rejected with a ValueError (it reaches the engine,
whose error the caller sees re-raised), and the executed SQL text
contains ORDER BY m.evil verbatim. -/
theorem C2_counterexample_sortby_not_rejected :
    returns_value_error (get_mods emptyDB 20 0 none none "evil" "DESC") = false ∧
    get_mods_query none none "evil" "DESC" =
      "SELECT m.id, m.title, m.description, m.upload_date, m.download_count, m.rating, m.rating_count, m.version, m.game_compatibility, u.username as author_name, m.thumbnail_path FROM mods m JOIN users u ON m.author_id = u.id WHERE m.is_public = 1 ORDER BY m.evil DESC LIMIT ? OFFSET ?" := by
  exact ⟨by decide, by decide⟩

/-- C1 (code behavior at the failing input): authenticating with fully
correct credentials of an active account does not return the account: the
matching row makes the source reach the last-login UPDATE whose parameter
tuple is malformed, so the call raises ProgrammingError and the store
(including the last-login column) is unchanged. -/
theorem C1_authenticate_raises_on_valid_credentials
    (hash_password : String → String) (db : DB) (ident pw : String) (u : UserRow)
    (hu : u ∈ db.users) (hid : u.username = ident ∨ u.email = ident)
    (hpw : u.password_hash = hash_password pw) (hact : u.is_active = true) :
    authenticate_user hash_password db ident pw =
      (.error (.programmingError "parameters are of unsupported type"), db) := by
  have hp : (fun v : UserRow => decide ((v.username = ident ∨ v.email = ident) ∧
      v.password_hash = hash_password pw ∧ v.is_active = true)) u = true := by
    simp only [decide_eq_true_eq]
    exact ⟨hid, hpw, hact⟩
  unfold authenticate_user
  cases hfind : db.users.find? (fun v => decide ((v.username = ident ∨ v.email = ident) ∧
      v.password_hash = hash_password pw ∧ v.is_active = true)) with
  | none =>
      rw [List.find?_eq_none] at hfind
      exact absurd hp (hfind u hu)
  | some v => rfl

/-- C1 witness: with the identity hash, the concrete account c1u matches
the identifier alice and password secret1 and is active, yet
authenticate_user raises ProgrammingError and returns the store
unchanged. -/
theorem C1_witness :
    c1u ∈ c1db.users ∧ (c1u.username = "alice" ∨ c1u.email = "alice") ∧
    c1u.password_hash = (fun s => s) "secret1" ∧ c1u.is_active = true ∧
    authenticate_user (fun s => s) c1db "alice" "secret1" =
      (.error (.programmingError "parameters are of unsupported type"), c1db) :=
  ⟨by decide, Or.inl rfl, rfl, rfl,
   C1_authenticate_raises_on_valid_credentials (fun s => s) c1db "alice" "secret1" c1u
     (by decide) (Or.inl rfl) rfl rfl⟩

/-- C7: on validation-passing input, create_user with an already-present
(stripped) username fails with the ValueError naming the username, and
with a fresh username but an already-present email it fails with the
distinct ValueError naming the email; both failures leave the store
without a new row. -/
theorem C7_duplicate_username_and_email_kinds (hash_password : String → String)
    (db : DB) (now : Nat) (username email password : String)
    (hu : ¬ py_strip username = "") (he : ¬ py_strip email = "")
    (hp : ¬ password.length < 6)
    (hfmt : email.data.contains '@' = true ∧ email.data.contains '.' = true) :
    ((∃ w ∈ db.users, w.username = py_strip username) →
      create_user hash_password db now username email password =
        (.error (.valueError "Username already exists"), db)) ∧
    ((∀ w ∈ db.users, w.username ≠ py_strip username) →
      (∃ w ∈ db.users, w.email = py_strip email) →
      create_user hash_password db now username email password =
        (.error (.valueError "Email already exists"), db)) := by
  constructor
  · rintro ⟨w, hw, hwn⟩
    unfold create_user
    rw [if_neg hu, if_neg he, if_neg hp, if_neg (not_not_intro hfmt),
      if_pos (List.any_eq_true.mpr ⟨w, hw, by simp [hwn]⟩)]
  · rintro hnone ⟨w, hw, hwe⟩
    unfold create_user
    rw [if_neg hu, if_neg he, if_neg hp, if_neg (not_not_intro hfmt)]
    rw [if_neg (fun h => by
        rcases List.any_eq_true.mp h with ⟨w2, hw2, hd⟩
        exact hnone w2 hw2 (by simpa using hd)),
      if_pos (List.any_eq_true.mpr ⟨w, hw, by simp [hwe]⟩)]

/-- C7 witness: on the concrete store holding alice with email a@x.com,
registering the username alice again yields the username-duplication
error and registering bob with the email a@x.com yields the
email-duplication error, in both cases with the store unchanged. -/
theorem C7_witness :
    (∃ w ∈ c1db.users, w.username = py_strip "alice") ∧
    (∃ w ∈ c1db.users, w.email = py_strip "a@x.com") ∧
    create_user (fun s => s) c1db 9 "alice" "b@y.com" "secret1" =
      (.error (.valueError "Username already exists"), c1db) ∧
    create_user (fun s => s) c1db 9 "bob" "a@x.com" "secret1" =
      (.error (.valueError "Email already exists"), c1db) :=
  ⟨by decide, by decide,
   (C7_duplicate_username_and_email_kinds (fun s => s) c1db 9 "alice" "b@y.com" "secret1"
     (by decide) (by decide) (by decide) (by decide)).1 (by decide),
   (C7_duplicate_username_and_email_kinds (fun s => s) c1db 9 "bob" "a@x.com" "secret1"
     (by decide) (by decide) (by decide) (by decide)).2 (by decide) (by decide)⟩

/-- C3 (amended): a patch with an extension outside the allow-list makes
single-file mode fail with the Unsupported-patch-format outcome and no
history entry, while batch mode performs no extension validation at all:
any patch extension other than .ips and .bps takes the generic branch,
which copies the input file to the output path and appends a line to the
success log, leaving the error log untouched; the per-file step never
raises, so the remaining batch files are processed regardless. -/
theorem C3_unsupported_ext_single_vs_batch
    (fs : FS) (history : List PatchRecord) (bdir ts pf cf : String) (pb cb : List Nat)
    (s : BatchState) (outdir nowStr f : String) (pb2 fb : List Nat)
    (h1 : fsLookup fs pf = some pb) (h2 : pf ≠ "") (h3 : fsLookup fs cf = some cb)
    (h4 : cf ≠ "") (h5 : file_ext_lower pf ∉ allowed_patch_exts)
    (h6 : fsLookup s.fs pf = some pb2) (h7 : fsLookup s.fs f = some fb) :
    apply_patch_thread fs history bdir ts pf cf =
      (.invalidFormat ("Unsupported patch format: " ++ file_ext_lower pf), history) ∧
    batch_patch_file s outdir pf nowStr f =
      { s with
        fs := fsWrite s.fs (batch_output_name outdir f) fb
        logs := s.logs ++
          [nowStr ++ ": Patched " ++ f ++ " -> " ++ batch_output_name outdir f ++
            " using " ++ pf] } := by
  have hips : ¬ file_ext_lower pf = ".ips" := fun h => h5 (by rw [h]; simp [allowed_patch_exts])
  have hbps : ¬ file_ext_lower pf = ".bps" := fun h => h5 (by rw [h]; simp [allowed_patch_exts])
  constructor
  · unfold apply_patch_thread
    rw [if_neg (by simp [h1, h2]), if_neg (by simp [h3, h4]), if_pos h5]
  · unfold batch_patch_file
    rw [if_neg (by simp [h6, h2]), if_neg hips, if_neg hbps, h7]

/-- C3 witness: the concrete .xyz patch exists alongside the original in
both modes; single-file mode reports the unsupported format and batch
mode writes the copied output and the success-log line. -/
theorem C3_witness :
    fsLookup c3fs "p.xyz" = some [9] ∧ fsLookup c3fs "game.wad" = some [1, 2, 3] ∧
    file_ext_lower "p.xyz" ∉ allowed_patch_exts ∧
    apply_patch_thread c3fs [] "backups/" "T" "p.xyz" "game.wad" =
      (.invalidFormat ("Unsupported patch format: " ++ file_ext_lower "p.xyz"), []) ∧
    batch_patch_file c3state "out" "p.xyz" "T" "game.wad" =
      { c3state with
        fs := fsWrite c3state.fs (batch_output_name "out" "game.wad") [1, 2, 3]
        logs := c3state.logs ++
          ["T" ++ ": Patched " ++ "game.wad" ++ " -> " ++ batch_output_name "out" "game.wad" ++
            " using " ++ "p.xyz"] } := by
  have h := C3_unsupported_ext_single_vs_batch c3fs [] "backups/" "T" "p.xyz" "game.wad"
    [9] [1, 2, 3] c3state "out" "T" "game.wad" [9] [1, 2, 3]
    (by decide) (by decide) (by decide) (by decide) (by decide) (by decide) (by decide)
  exact ⟨by decide, by decide, by decide, h.1, h.2⟩

set_option maxRecDepth 20000 in
/-- C3 counterexample: a two-file batch run with the unsupported .xyz
patch writes no error-log line at all, produces both output files (each
a copy of its input), and appends two success-log lines: the patch is
not skipped and nothing is recorded in batch_patch_errors.txt. -/
theorem C3_counterexample_batch_xyz_not_logged_as_error :
    (batch_run "out" "p.xyz" "T" ["game.wad", "other.wad"] c3state).errors = [] ∧
    fsLookup (batch_run "out" "p.xyz" "T" ["game.wad", "other.wad"] c3state).fs
      "out/game_patched.wad" = some [1, 2, 3] ∧
    fsLookup (batch_run "out" "p.xyz" "T" ["game.wad", "other.wad"] c3state).fs
      "out/other_patched.wad" = some [7] ∧
    (batch_run "out" "p.xyz" "T" ["game.wad", "other.wad"] c3state).logs =
      ["T: Patched game.wad -> out/game_patched.wad using p.xyz",
       "T: Patched other.wad -> out/other_patched.wad using p.xyz"] := by
  refine ⟨by decide, by decide, by decide, by decide⟩

/-- C6: for an existing original and an existing patch file, every
branch of the dispatcher writes an output whose bytes are the original
bytes: the .ips routine does so whether or not the patch starts with the
PATCH marker, the .bps routine always copies, and the batch dispatcher
(covering the generic branch as well as the two routines) leaves the
original bytes at the output path. -/
theorem C6_patch_branches_copy_original
    (fs : FS) (orig pf out : String) (ob pb : List Nat)
    (ho : fsLookup fs orig = some ob) (hp : fsLookup fs pf = some pb)
    (s : BatchState) (outdir nowStr f : String) (fb pb2 : List Nat)
    (hbf : fsLookup s.fs f = some fb) (hbp : fsLookup s.fs pf = some pb2)
    (hpne : pf ≠ "") :
    apply_ips_patch fs orig pf out = .ok (fsWrite fs out ob) ∧
    apply_bps_patch fs orig pf out = .ok (fsWrite fs out ob) ∧
    fsLookup (fsWrite fs out ob) out = some ob ∧
    fsLookup (batch_patch_file s outdir pf nowStr f).fs (batch_output_name outdir f) =
      some fb := by
  refine ⟨?_, ?_, fsLookup_fsWrite_self fs out ob, ?_⟩
  · unfold apply_ips_patch
    rw [ho, hp]
    dsimp only
    rw [ite_self]
  · unfold apply_bps_patch
    rw [ho]
  · unfold batch_patch_file
    rw [if_neg (by simp [hbp, hpne])]
    by_cases hips : file_ext_lower pf = ".ips"
    · rw [if_pos hips]
      unfold apply_ips_patch
      rw [hbf, hbp]
      dsimp only
      rw [ite_self]
      exact fsLookup_fsWrite_self _ _ _
    · by_cases hbpse : file_ext_lower pf = ".bps"
      · rw [if_neg hips, if_pos hbpse]
        unfold apply_bps_patch
        rw [hbf]
        exact fsLookup_fsWrite_self _ _ _
      · rw [if_neg hips, if_neg hbpse, hbf]
        exact fsLookup_fsWrite_self _ _ _

/-- C6 witness: on the concrete c6fs, the .ips routine writes the
original bytes for the marker patch p1.ips, the .bps routine copies, and
the batch dispatcher leaves the original bytes at the output path. -/
theorem C6_witness :
    fsLookup c6fs "orig.bin" = some [1, 2, 3] ∧
    fsLookup c6fs "p1.ips" = some [80, 65, 84, 67, 72, 0] ∧
    (apply_ips_patch c6fs "orig.bin" "p1.ips" "out.bin" =
        .ok (fsWrite c6fs "out.bin" [1, 2, 3]) ∧
      apply_bps_patch c6fs "orig.bin" "p1.ips" "out.bin" =
        .ok (fsWrite c6fs "out.bin" [1, 2, 3]) ∧
      fsLookup (fsWrite c6fs "out.bin" [1, 2, 3]) "out.bin" = some [1, 2, 3] ∧
      fsLookup (batch_patch_file c6state "out" "p1.ips" "T" "orig.bin").fs
        (batch_output_name "out" "orig.bin") = some [1, 2, 3]) :=
  ⟨by decide, by decide,
   C6_patch_branches_copy_original c6fs "orig.bin" "p1.ips" "out.bin" [1, 2, 3]
     [80, 65, 84, 67, 72, 0] (by decide) (by decide) c6state "out" "T" "orig.bin" [1, 2, 3]
     [80, 65, 84, 67, 72, 0] (by decide) (by decide) (by decide)⟩

/-- Every row of the mods-users join pairs a mod with a user row whose
id equals the mod's author_id. -/
theorem get_mods_joined_author (db : DB) (mu : ModRow × UserRow)
    (h : mu ∈ get_mods_joined db) :
    mu.1 ∈ db.mods ∧ mu.2 ∈ db.users ∧ mu.2.id = mu.1.author_id := by
  unfold get_mods_joined at h
  rcases List.mem_flatMap.mp h with ⟨m, hm, hmu⟩
  rcases List.mem_map.mp hmu with ⟨u, hu, hmu2⟩
  rcases List.mem_filter.mp hu with ⟨hu1, hu2⟩
  subst hmu2
  exact ⟨hm, hu1, by simpa using hu2⟩

/-- The WHERE filters only shrink the join. -/
theorem get_mods_rows_sub_joined (db : DB) (cat : Option Nat) (q : Option String)
    (mu : ModRow × UserRow) (h : mu ∈ get_mods_rows db cat q) :
    mu ∈ get_mods_joined db := by
  unfold get_mods_rows at h
  exact (List.mem_filter.mp (List.mem_filter.mp (List.mem_filter.mp h).1).1).1

/-- Every summary a successful get_mods call returns comes from a row
surviving the WHERE filters. -/
theorem get_mods_result_from_rows (db : DB) (limit offset : Nat)
    (cat : Option Nat) (q : Option String) (sb so : String)
    (res : List ModSummary)
    (h : get_mods db limit offset cat q sb so = .ok res) :
    ∀ x ∈ res, ∃ mu ∈ get_mods_rows db cat q, x = to_summary mu := by
  unfold get_mods at h
  split at h
  · rw [Except.ok.injEq] at h
    subst h
    intro x hx
    rcases List.mem_map.mp hx with ⟨mu, hmu, rfl⟩
    exact ⟨mu,
      List.mem_mergeSort.mp (List.mem_of_mem_drop (List.mem_of_mem_take hmu)), rfl⟩
  · cases h

/-- Successful upload_mod fully characterized: the returned id is the
next mod id and the new store appends exactly one mods row built from
the (stripped) arguments, with no check that author_id references a
user. -/
theorem upload_mod_success (fs : FS) (db : DB) (now : Nat)
    (title description : String) (author_id : Nat)
    (file_path gc version tags : String) (is_public : Bool) (bytes : List Nat)
    (htitle : ¬ py_strip title = "") (hfp : ¬ file_path = "")
    (hex : fsLookup fs file_path = some bytes)
    (hsize : ¬ bytes.length > max_mod_size) (hgc : ¬ py_strip gc = "") :
    upload_mod fs db now title description author_id file_path gc version tags is_public =
      (.ok db.nextModId,
       { db with
         mods := db.mods ++
           [{ id := db.nextModId, title := py_strip title,
              description := if description ≠ "" then py_strip description else "",
              author_id := author_id, file_path := file_path,
              file_size := bytes.length, upload_date := now,
              game_compatibility := py_strip gc,
              version := if version ≠ "" then py_strip version else "1.0",
              tags := if tags ≠ "" then py_strip tags else "",
              is_public := is_public }],
         nextModId := db.nextModId + 1 }) := by
  unfold upload_mod
  rw [if_neg htitle, if_neg (by simp [hex, hfp]), if_neg hgc, hex]
  simp only [Option.getD_some]
  rw [if_neg hsize]

/-- C9: get_mods inner-joins mods to users, so every returned row's
author_id references an existing account; upload_mod performs no such
check, so a mod uploaded with a nonexistent author_id succeeds (returns
the new id) yet never appears in any get_mods result, for every
combination of paging, filter and sort arguments. -/
theorem C9_orphan_upload_never_listed (fs : FS) (db : DB) (now : Nat)
    (title description : String) (author_id : Nat)
    (file_path gc version tags : String) (is_public : Bool) (bytes : List Nat)
    (htitle : ¬ py_strip title = "") (hfp : ¬ file_path = "")
    (hex : fsLookup fs file_path = some bytes)
    (hsize : ¬ bytes.length > max_mod_size) (hgc : ¬ py_strip gc = "")
    (hauthor : ∀ u ∈ db.users, u.id ≠ author_id)
    (hfresh : ∀ m ∈ db.mods, m.id ≠ db.nextModId) :
    (upload_mod fs db now title description author_id file_path gc version tags is_public).1 =
      .ok db.nextModId ∧
    (∀ cat q mu,
      mu ∈ get_mods_rows
        (upload_mod fs db now title description author_id file_path gc version tags is_public).2
        cat q →
      ∃ u ∈ db.users, u.id = mu.1.author_id) ∧
    (∀ limit offset cat q sb so res,
      get_mods
        (upload_mod fs db now title description author_id file_path gc version tags is_public).2
        limit offset cat q sb so = .ok res →
      ∀ x ∈ res, x.id ≠ db.nextModId) := by
  have hchar := upload_mod_success fs db now title description author_id file_path gc
    version tags is_public bytes htitle hfp hex hsize hgc
  rw [hchar]
  refine ⟨rfl, ?_, ?_⟩
  · intro cat q mu hmu
    have hj := get_mods_joined_author _ mu (get_mods_rows_sub_joined _ cat q mu hmu)
    exact ⟨mu.2, hj.2.1, hj.2.2⟩
  · intro limit offset cat q sb so res hres x hx hxid
    rcases get_mods_result_from_rows _ limit offset cat q sb so res hres x hx
      with ⟨mu, hmu, rfl⟩
    have hj := get_mods_joined_author _ mu (get_mods_rows_sub_joined _ cat q mu hmu)
    have hid : mu.1.id = db.nextModId := hxid
    rcases List.mem_append.mp hj.1 with hin | hnew
    · exact hfresh mu.1 hin hid
    · have hrow := List.mem_singleton.mp hnew
      have hau : mu.2.id = author_id := by rw [hj.2.2, hrow]
      exact hauthor mu.2 hj.2.1 hau

/-- C9 witness: uploading the concrete mod file as the nonexistent
author 7 succeeds on the store c9db, and the resulting store never lists
the new mod. -/
theorem C9_witness :
    fsLookup c9fs "shared_mods/9_mod.zip" = some [1, 2, 3] ∧
    (∀ u ∈ c9db.users, u.id ≠ 7) ∧
    ((upload_mod c9fs c9db 3 "Orphan" "" 7 "shared_mods/9_mod.zip" "G" "1.0" "" true).1 =
        .ok c9db.nextModId ∧
      (∀ cat q mu,
        mu ∈ get_mods_rows
          (upload_mod c9fs c9db 3 "Orphan" "" 7 "shared_mods/9_mod.zip" "G" "1.0" "" true).2
          cat q →
        ∃ u ∈ c9db.users, u.id = mu.1.author_id) ∧
      (∀ limit offset cat q sb so res,
        get_mods
          (upload_mod c9fs c9db 3 "Orphan" "" 7 "shared_mods/9_mod.zip" "G" "1.0" "" true).2
          limit offset cat q sb so = .ok res →
        ∀ x ∈ res, x.id ≠ c9db.nextModId)) :=
  ⟨by decide, by decide,
   C9_orphan_upload_never_listed c9fs c9db 3 "Orphan" "" 7 "shared_mods/9_mod.zip" "G"
     "1.0" "" true [1, 2, 3] (by decide) (by decide) (by decide) (by decide) (by decide)
     (by decide) (by decide)⟩

/-- Mapping an id-preserving function over mod rows preserves the
existence test on any id. -/
theorem any_id_map (l : List ModRow) (g : ModRow → ModRow) (x : Nat)
    (hg : ∀ m, (g m).id = m.id) :
    (l.map g).any (fun m => m.id = x) = l.any (fun m => m.id = x) := by
  rw [List.any_map]
  congr 1
  funext m
  simp [Function.comp, hg m]

/-- recompute_rating preserves the mod-existence test. -/
theorem recompute_rating_any (db : DB) (mid x : Nat) :
    (recompute_rating db mid).mods.any (fun m => m.id = x) =
      db.mods.any (fun m => m.id = x) :=
  any_id_map db.mods _ x (fun m => by by_cases h : m.id = mid <;> simp [h])

/-- After recompute_rating, every row with the recomputed id carries the
AVG and COUNT of the mod's non-NULL comment ratings. -/
theorem recompute_rating_sets (db : DB) (mid : Nat) :
    ∀ m ∈ (recompute_rating db mid).mods, m.id = mid →
      m.rating = ((rated_for db.comments mid).sum : Rat) /
          ((rated_for db.comments mid).length : Rat) ∧
      m.rating_count = (rated_for db.comments mid).length := by
  intro m hm hid
  unfold recompute_rating at hm
  rcases List.mem_map.mp hm with ⟨m0, hm0, rfl⟩
  by_cases h : m0.id = mid
  · rw [if_pos h]
    exact ⟨rfl, rfl⟩
  · rw [if_neg h] at hid
    exact absurd hid h

/-- The rated-comments list distributes over table append. -/
theorem rated_for_append (l l2 : List CommentRow) (mid : Nat) :
    rated_for (l ++ l2) mid = rated_for l mid ++ rated_for l2 mid := by
  unfold rated_for
  rw [List.filterMap_append]

/-- The rated-comments list of a single row of the right mod is that
row's rating. -/
theorem rated_for_one (row : CommentRow) (mid : Nat) (h : row.mod_id = mid) :
    rated_for [row] mid = row.rating.toList := by
  unfold rated_for
  cases hr : row.rating with
  | none => simp [List.filterMap_cons, h, hr]
  | some r => simp [List.filterMap_cons, h, hr]

/-- The ratings of a call sequence unfold one call at a time. -/
theorem call_ratings_cons (c : CommentCall) (rest : List CommentCall) :
    call_ratings (c :: rest) = c.rating.toList ++ call_ratings rest := by
  unfold call_ratings
  cases hr : c.rating with
  | none => simp [List.filterMap_cons, hr]
  | some r => simp [List.filterMap_cons, hr]

/-- A rating that passes the range check lies in 1..5. -/
theorem bad_rating_false_some (r : Int) (h : bad_rating (some r) = false) :
    1 ≤ r ∧ r ≤ 5 := by
  unfold bad_rating at h
  simp only [Bool.or_eq_false_iff, decide_eq_false_iff_not] at h
  exact ⟨by omega, by omega⟩

/-- Successful add_comment fully characterized: on validation-passing
input with existing mod and user, the call returns ok, appends the
comment row, and recomputes the mod aggregates exactly when the rating
is truthy. -/
theorem add_comment_success (db : DB) (now mid uid : Nat) (text : String)
    (rating : Option Int) (htext : ¬ py_strip text = "")
    (hr : bad_rating rating = false)
    (hmod : db.mods.any (fun m => m.id = mid) = true)
    (huser : db.users.any (fun u => u.id = uid) = true) :
    add_comment db now mid uid text rating =
      (.ok (),
       if rating.getD 0 ≠ 0 then
         recompute_rating
           { db with
             comments := db.comments ++
               [{ id := db.nextCommentId, mod_id := mid, user_id := uid,
                  comment := py_strip text, rating := rating, created_date := now }],
             nextCommentId := db.nextCommentId + 1 } mid
       else
         { db with
           comments := db.comments ++
             [{ id := db.nextCommentId, mod_id := mid, user_id := uid,
                comment := py_strip text, rating := rating, created_date := now }],
           nextCommentId := db.nextCommentId + 1 }) := by
  unfold add_comment
  rw [if_neg htext, if_neg (by simp [hr]), if_pos hmod, if_pos huser]

/-- The store after a successful add_comment. -/
theorem add_comment_success_snd (db : DB) (now mid uid : Nat) (text : String)
    (rating : Option Int) (htext : ¬ py_strip text = "")
    (hr : bad_rating rating = false)
    (hmod : db.mods.any (fun m => m.id = mid) = true)
    (huser : db.users.any (fun u => u.id = uid) = true) :
    (add_comment db now mid uid text rating).2 =
      (if rating.getD 0 ≠ 0 then
         recompute_rating
           { db with
             comments := db.comments ++
               [{ id := db.nextCommentId, mod_id := mid, user_id := uid,
                  comment := py_strip text, rating := rating, created_date := now }],
             nextCommentId := db.nextCommentId + 1 } mid
       else
         { db with
           comments := db.comments ++
             [{ id := db.nextCommentId, mod_id := mid, user_id := uid,
                comment := py_strip text, rating := rating, created_date := now }],
           nextCommentId := db.nextCommentId + 1 }) := by
  rw [add_comment_success db now mid uid text rating htext hr hmod huser]

/-- One successful add_comment call preserves the user table and the
mod-existence test, extends the mod's rated list by exactly the call's
rating, and maintains the aggregate invariant: whenever the rated list
is nonempty, every row of the mod carries its AVG and COUNT. -/
theorem add_comment_step_facts (db : DB) (mid : Nat) (c : CommentCall)
    (htext : ¬ py_strip c.text = "") (hr : bad_rating c.rating = false)
    (hmod : db.mods.any (fun m => m.id = mid) = true)
    (huser : db.users.any (fun u => u.id = c.user_id) = true)
    (hinv : rated_for db.comments mid ≠ [] →
      ∀ m ∈ db.mods, m.id = mid →
        m.rating = ((rated_for db.comments mid).sum : Rat) /
            ((rated_for db.comments mid).length : Rat) ∧
        m.rating_count = (rated_for db.comments mid).length) :
    (add_comment db c.now mid c.user_id c.text c.rating).2.users = db.users ∧
    rated_for (add_comment db c.now mid c.user_id c.text c.rating).2.comments mid =
      rated_for db.comments mid ++ c.rating.toList ∧
    (add_comment db c.now mid c.user_id c.text c.rating).2.mods.any
      (fun m => m.id = mid) = true ∧
    (rated_for (add_comment db c.now mid c.user_id c.text c.rating).2.comments mid ≠ [] →
      ∀ m ∈ (add_comment db c.now mid c.user_id c.text c.rating).2.mods, m.id = mid →
        m.rating =
          ((rated_for (add_comment db c.now mid c.user_id c.text c.rating).2.comments
              mid).sum : Rat) /
            ((rated_for (add_comment db c.now mid c.user_id c.text c.rating).2.comments
              mid).length : Rat) ∧
        m.rating_count =
          (rated_for (add_comment db c.now mid c.user_id c.text c.rating).2.comments
            mid).length) := by
  rw [add_comment_success_snd db c.now mid c.user_id c.text c.rating htext hr hmod huser]
  cases hcr : c.rating with
  | none =>
      rw [if_neg (by simp)]
      have heq : rated_for
          (db.comments ++
            [{ id := db.nextCommentId, mod_id := mid, user_id := c.user_id,
               comment := py_strip c.text, rating := none, created_date := c.now }]) mid =
          rated_for db.comments mid := by
        rw [rated_for_append, rated_for_one _ _ rfl]
        simp
      refine ⟨rfl, ?_, hmod, ?_⟩
      · show rated_for
            (db.comments ++
              [{ id := db.nextCommentId, mod_id := mid, user_id := c.user_id,
                 comment := py_strip c.text, rating := none, created_date := c.now }]) mid =
            rated_for db.comments mid ++ Option.toList none
        rw [heq]
        simp
      · intro hne m hm hid
        show m.rating = ((rated_for
              (db.comments ++
                [{ id := db.nextCommentId, mod_id := mid, user_id := c.user_id,
                   comment := py_strip c.text, rating := none, created_date := c.now }])
              mid).sum : Rat) /
            ((rated_for
              (db.comments ++
                [{ id := db.nextCommentId, mod_id := mid, user_id := c.user_id,
                   comment := py_strip c.text, rating := none, created_date := c.now }])
              mid).length : Rat) ∧
          m.rating_count = (rated_for
              (db.comments ++
                [{ id := db.nextCommentId, mod_id := mid, user_id := c.user_id,
                   comment := py_strip c.text, rating := none, created_date := c.now }])
              mid).length
        rw [heq]
        rw [heq] at hne
        exact hinv hne m hm hid
  | some r =>
      have h15 := bad_rating_false_some r (by rw [hcr] at hr; exact hr)
      rw [if_pos (by simp only [Option.getD_some]; omega)]
      have heq : rated_for
          (db.comments ++
            [{ id := db.nextCommentId, mod_id := mid, user_id := c.user_id,
               comment := py_strip c.text, rating := some r, created_date := c.now }]) mid =
          rated_for db.comments mid ++ [r] := by
        rw [rated_for_append, rated_for_one _ _ rfl]
        rfl
      refine ⟨rfl, ?_, ?_, ?_⟩
      · exact heq
      · rw [recompute_rating_any]
        exact hmod
      · intro hne m hm hid
        exact recompute_rating_sets
          { db with
            comments := db.comments ++
              [{ id := db.nextCommentId, mod_id := mid, user_id := c.user_id,
                 comment := py_strip c.text, rating := some r, created_date := c.now }],
            nextCommentId := db.nextCommentId + 1 } mid m hm hid

/-- Running a valid call sequence preserves the user table and the
mod-existence test, extends the mod's rated list by exactly the
sequence's ratings, and maintains the aggregate invariant. -/
theorem run_comments_invariant (mid : Nat) (calls : List CommentCall) :
    ∀ db : DB,
    db.mods.any (fun m => m.id = mid) = true →
    (∀ c ∈ calls, ¬ py_strip c.text = "" ∧ bad_rating c.rating = false ∧
        db.users.any (fun u => u.id = c.user_id) = true) →
    (rated_for db.comments mid ≠ [] →
      ∀ m ∈ db.mods, m.id = mid →
        m.rating = ((rated_for db.comments mid).sum : Rat) /
            ((rated_for db.comments mid).length : Rat) ∧
        m.rating_count = (rated_for db.comments mid).length) →
    (run_comments db mid calls).users = db.users ∧
    rated_for (run_comments db mid calls).comments mid =
      rated_for db.comments mid ++ call_ratings calls ∧
    (run_comments db mid calls).mods.any (fun m => m.id = mid) = true ∧
    (rated_for (run_comments db mid calls).comments mid ≠ [] →
      ∀ m ∈ (run_comments db mid calls).mods, m.id = mid →
        m.rating = ((rated_for (run_comments db mid calls).comments mid).sum : Rat) /
            ((rated_for (run_comments db mid calls).comments mid).length : Rat) ∧
        m.rating_count = (rated_for (run_comments db mid calls).comments mid).length) := by
  induction calls with
  | nil =>
      intro db hmod hval hinv
      exact ⟨rfl, (List.append_nil _).symm, hmod, hinv⟩
  | cons c rest ih =>
      intro db hmod hval hinv
      obtain ⟨htext, hr, huser⟩ := hval c (List.mem_cons_self c rest)
      obtain ⟨f1, f2, f3, f4⟩ := add_comment_step_facts db mid c htext hr hmod huser hinv
      have hval2 : ∀ c2 ∈ rest, ¬ py_strip c2.text = "" ∧ bad_rating c2.rating = false ∧
          ((add_comment db c.now mid c.user_id c.text c.rating).2.users.any
            (fun u => u.id = c2.user_id)) = true := by
        intro c2 hc2
        obtain ⟨a, b, d⟩ := hval c2 (List.mem_cons_of_mem c hc2)
        exact ⟨a, b, by rw [f1]; exact d⟩
      obtain ⟨g1, g2, g3, g4⟩ :=
        ih (add_comment db c.now mid c.user_id c.text c.rating).2 f3 hval2 f4
      refine ⟨g1.trans f1, ?_, g3, g4⟩
      show rated_for
          (run_comments (add_comment db c.now mid c.user_id c.text c.rating).2 mid
            rest).comments mid =
        rated_for db.comments mid ++ call_ratings (c :: rest)
      rw [g2, f2, call_ratings_cons, List.append_assoc]

/-- C5: starting from a mod with no rated comments, any valid sequence
of add_comment calls carrying ratings r1..rn (arbitrarily interleaved
with unrated comments, which change nothing) leaves the mod row with
rating equal to the arithmetic mean of r1..rn and rating_count equal to
n. -/
theorem C5_rating_is_mean_of_sequence (db : DB) (mid : Nat)
    (calls : List CommentCall)
    (hmod : db.mods.any (fun m => m.id = mid) = true)
    (hval : ∀ c ∈ calls, ¬ py_strip c.text = "" ∧ bad_rating c.rating = false ∧
        db.users.any (fun u => u.id = c.user_id) = true)
    (hinit : rated_for db.comments mid = [])
    (hne : call_ratings calls ≠ []) :
    ∀ m ∈ (run_comments db mid calls).mods, m.id = mid →
      m.rating = ((call_ratings calls).sum : Rat) / ((call_ratings calls).length : Rat) ∧
      m.rating_count = (call_ratings calls).length := by
  obtain ⟨_, hrated, _, hfinal⟩ := run_comments_invariant mid calls db hmod hval
    (fun hcon => absurd hinit hcon)
  rw [hinit, List.nil_append] at hrated
  rw [hrated] at hfinal
  exact hfinal hne

/-- C5 witness: on the concrete store c5db, the mod has no rated
comments, the sequence c5calls carries ratings 4 and 2 around an unrated
comment, and afterwards the mod row holds rating 3 and rating_count
2. -/
theorem C5_witness :
    rated_for c5db.comments 1 = [] ∧ call_ratings c5calls = [4, 2] ∧
    (∀ m ∈ (run_comments c5db 1 c5calls).mods, m.id = 1 →
      m.rating = ((call_ratings c5calls).sum : Rat) / ((call_ratings c5calls).length : Rat) ∧
      m.rating_count = (call_ratings c5calls).length) :=
  ⟨by decide, by decide,
   C5_rating_is_mean_of_sequence c5db 1 c5calls (by decide) (by decide) (by decide)
     (by decide)⟩
